import Mathlib

/-
Verification development for the TournamentWorkshop repository.

The embedded program is the submission-verification pipeline in
Tools/verificationScript.py together with the submission registry in
.vscode/server.py.

Modelling conventions:
* A source line is a list of characters (`Line`); the Python string
  methods strip / startswith / endswith / in / count / [:n] are embedded
  as executable functions on character lists.
* Python float arithmetic on ratios (compliance and coverage percentages,
  latency estimates) is embedded over the rationals.
* Each check that talks to the outside world (subprocess runs, the file
  system) is a function of an explicit environment record capturing the
  outcomes the code branches on: raised exceptions, process exit codes,
  which files were found, parsed timing.  A raised-and-caught exception
  inside a check is the `raises` flag of its environment.
-/

/-- A source line, embedded as its list of characters. -/
abbrev Line := List Char

/-- Python str.strip: drop whitespace from both ends. -/
def pyStrip (l : Line) : Line :=
  ((l.dropWhile Char.isWhitespace).reverse.dropWhile Char.isWhitespace).reverse

/-- Python substring containment test (`pat in l`). -/
def containsSub (pat l : Line) : Bool :=
  l.tails.any (fun t => pat.isPrefixOf t)

/-- Python str.startswith. -/
def startsWithL (p l : Line) : Bool := p.isPrefixOf l

/-- Python str.endswith. -/
def endsWithL (p l : Line) : Bool := p.isSuffixOf l

/--
One recorded rule violation, as built by verificationScript.py
(a dict with keys file, line, content).  Files are identified by their
1-based position in the scanned file list, standing in for the path;
line numbers are 1-based; content is the stored snippet.
-/
structure RuleViolation where
  file : Nat
  line : Nat
  content : Line
deriving DecidableEq

/--
check_double_semicolons, per-line test (verificationScript.py lines
96-101): the raw line contains two adjacent semicolons and its stripped
form starts neither with the single-line nor the block comment marker.
-/
def dsLineViolates (line : Line) : Bool :=
  containsSub ";;".toList line &&
    !(startsWithL "//".toList (pyStrip line)) &&
    !(startsWithL "*".toList (pyStrip line))

/--
check_double_semicolons, scan of the lines of one file (file index fi,
first line numbered n): one violation is appended per offending line,
recording the stripped line as content.
-/
def dsScanLines (fi n : Nat) : List Line → List RuleViolation
  | [] => []
  | l :: ls =>
      (if dsLineViolates l then [⟨fi, n, pyStrip l⟩] else []) ++
        dsScanLines fi (n + 1) ls

/--
check_double_semicolons, scan over the readable files, numbering files
from fi and lines from 1 within each file.
-/
def dsScanFiles (fi : Nat) : List (List Line) → List RuleViolation
  | [] => []
  | f :: fs => dsScanLines fi 1 f ++ dsScanFiles (fi + 1) fs

/--
check_double_semicolons (verificationScript.py lines 84-122).  A file
that could not be read only produces a warning and is skipped (`none`).
The check returns True exactly when no violation was collected.
-/
def check_double_semicolons (files : List (Option (List Line))) : Bool :=
  (dsScanFiles 1 (files.filterMap id)).isEmpty

/--
Accumulator of check_statement_endings: the multi-line-comment flag plus
the counters total_statements and correct_statements, the list
issues_found, and additionally a count of the statements whose missing
marker was excused by the string-literal heuristic (the branch at line
190 of verificationScript.py, which neither counts the line as correct
nor records an issue).
-/
structure StmtState where
  inComment : Bool
  total : Nat
  correct : Nat
  strExcluded : Nat
  issues : List RuleViolation
deriving DecidableEq

/-- Initial accumulator of check_statement_endings. -/
def stmtInit : StmtState := ⟨false, 0, 0, 0, []⟩

/--
check_statement_endings, handling of one line (verificationScript.py
lines 146-195): skip blanks, multi-line comments, single-line and XML
comments, attributes; classify the rest as statement or not; a statement
either ends with the // marker (correct), or is excused by the
string-literal heuristic, or is recorded as a violation (first 80
characters of the stripped line).
-/
def stmtProcessLine (fi : Nat) (st : StmtState) (n : Nat) (line : Line) : StmtState :=
  let stripped := pyStrip line
  if stripped.isEmpty then st
  else if containsSub "*/".toList stripped then { st with inComment := false }
  else if st.inComment || containsSub "/*".toList stripped then { st with inComment := true }
  else if startsWithL "//".toList stripped then st
  else if startsWithL "[".toList stripped && endsWithL "]".toList stripped then st
  else
    let has_semicolon := stripped.contains ';'
    let is_brace_only :=
      stripped == "\x7b".toList || stripped == "\x7d".toList ||
        stripped == "\x7b;".toList || stripped == "\x7d;".toList
    let is_property_or_method :=
      containsSub "=>".toList stripped || containsSub "get;".toList stripped ||
        containsSub "set;".toList stripped
    let is_for_loop := startsWithL "for (".toList stripped
    let is_linq_continuation := startsWithL ".".toList stripped
    let is_lambda := startsWithL "async () =>".toList stripped
    if (has_semicolon || is_property_or_method) && !is_brace_only &&
        !is_for_loop && !is_linq_continuation && !is_lambda then
      if endsWithL "//".toList stripped then
        { st with total := st.total + 1, correct := st.correct + 1 }
      else if stripped.contains '"' && 2 ≤ stripped.count '"' then
        { st with total := st.total + 1, strExcluded := st.strExcluded + 1 }
      else
        { st with total := st.total + 1,
                  issues := st.issues ++ [⟨fi, n, stripped.take 80⟩] }
    else st

/-- check_statement_endings, scan of the lines of one file. -/
def stmtScanLines (fi n : Nat) (st : StmtState) : List Line → StmtState
  | [] => st
  | l :: ls => stmtScanLines fi (n + 1) (stmtProcessLine fi st n l) ls

/--
check_statement_endings, scan over the readable files; the
multi-line-comment flag is reset at the start of each file while the
counters and the issue list accumulate across files.
-/
def stmtScanFiles (fi : Nat) (st : StmtState) : List (List Line) → StmtState
  | [] => st
  | f :: fs =>
      stmtScanFiles (fi + 1) (stmtScanLines fi 1 { st with inComment := false } f) fs

/--
Final accumulator of check_statement_endings over the given files; an
unreadable file (`none`) only produces a warning and contributes nothing.
-/
def statState (files : List (Option (List Line))) : StmtState :=
  stmtScanFiles 1 stmtInit (files.filterMap id)

/--
The compliance comparison of verificationScript.py line 209:
compliance_rate = correct / total * 100 is at least the 95 percent
threshold.
-/
def complianceOK (c t : Nat) : Bool :=
  decide ((95 : ℚ) ≤ (c : ℚ) / (t : ℚ) * 100)

/--
check_statement_endings (verificationScript.py lines 124-219): with no
statements found the check passes vacuously; otherwise it passes exactly
when the compliance rate reaches 95 percent.
-/
def check_statement_endings (files : List (Option (List Line))) : Bool :=
  let st := statState files
  if st.total = 0 then true
  else complianceOK st.correct st.total

/--
Environment of check_test_coverage: whether some statement of the body
raised (caught at line 294), the exit code of the dotnet test run,
whether coverage XML files were found under TestResults, the counts of
source files and of *Tests.cs files, and the number of tests counted
from the --list-tests output.
-/
structure CoverageEnv where
  raises : Bool
  testRunExit : Int
  coverageFilesFound : Bool
  sourceFileCount : Nat
  testFileCount : Nat
  listedTestCount : Nat

/--
check_test_coverage (verificationScript.py lines 221-296).  A raised
exception or a failing test run returns False.  When coverage files are
found, the file-count ratio is computed and the check returns True on
both sides of the 50 percent comparison (the below-threshold branch
merely warns).  Without coverage files it falls back to the counted
tests: True when at least 50, otherwise True exactly when the count is
positive.
-/
def check_test_coverage (env : CoverageEnv) : Bool :=
  if env.raises then false
  else if env.testRunExit ≠ 0 then false
  else if env.coverageFilesFound then
    let coverage_ratio : ℚ :=
      if env.sourceFileCount ≠ 0 then
        (env.testFileCount : ℚ) / (env.sourceFileCount : ℚ) * 100
      else 0
    if 50 ≤ coverage_ratio then true else true
  else if 50 ≤ env.listedTestCount then true
  else decide (0 < env.listedTestCount)

/--
Environment of check_execution_time: whether some statement of the body
raised (caught at line 389, including the 30 second subprocess timeout),
and the total test time in seconds parsed from the dotnet test output
(`none` when the Total time line is absent or unparsable).
-/
structure TimeEnv where
  raises : Bool
  totalTime : Option ℚ

/-- MAX_EXECUTION_TIME_MS of verificationScript.py (0.3 seconds). -/
def MAX_EXECUTION_TIME_MS : ℚ := 300

/--
The latency estimate of verificationScript.py lines 369-375: average
test time in milliseconds over the hardcoded count of 69 tests, divided
by the hardcoded estimate of 5 calls per test.
-/
def estimated_api_time (total_time : ℚ) : ℚ :=
  total_time / 69 * 1000 / 5

/--
check_execution_time (verificationScript.py lines 298-398).  Every path
returns True: a raised exception is caught and excused, a parsed timing
returns True on both sides of the 300 ms comparison (the high branch
merely warns), and a missing timing is excused as well.
-/
def check_execution_time (env : TimeEnv) : Bool :=
  if env.raises then true
  else
    match env.totalTime with
    | some total_time =>
        if estimated_api_time total_time < MAX_EXECUTION_TIME_MS then true else true
    | none => true

/--
Environment of check_compilation: whether the subprocess call raised
(caught at line 80), and the dotnet build exit code otherwise.
-/
structure CompileEnv where
  raises : Bool
  returncode : Int

/--
check_compilation (verificationScript.py lines 59-82): True exactly when
the build subprocess ran and exited with code 0; a raised exception is
caught and reported as failure.
-/
def check_compilation (env : CompileEnv) : Bool :=
  if env.raises then false else env.returncode == 0

/-- The combined environment of one run of run_all_verifications. -/
structure PipelineEnv where
  comp : CompileEnv
  dsFiles : List (Option (List Line))
  stmtFiles : List (Option (List Line))
  cov : CoverageEnv
  time : TimeEnv

/--
run_all_verifications (verificationScript.py lines 400-437): the five
checks run unconditionally in order, each result is stored under its
name, and the overall verdict is the conjunction of all stored results.
-/
def run_all_verifications (env : PipelineEnv) : List (String × Bool) × Bool :=
  let results : List (String × Bool) :=
    [("compilation", check_compilation env.comp),
     ("double_semicolons", check_double_semicolons env.dsFiles),
     ("statement_endings", check_statement_endings env.stmtFiles),
     ("test_coverage", check_test_coverage env.cov),
     ("execution_time", check_execution_time env.time)]
  (results, results.all (fun r => r.2))

/--
main (verificationScript.py lines 439-446): exit code 1 when the UserBot
directory is missing, otherwise 0 exactly when run_all_verifications
succeeded, else 1.
-/
def main_exit (userbotDirExists : Bool) (env : PipelineEnv) : Nat :=
  if !userbotDirExists then 1
  else if (run_all_verifications env).2 then 0 else 1

/--
One submission record of server.py (the fields written by
submit_bot_entry and updated by update_submission).
-/
structure Submission where
  bot_name : String
  team_name : String
  bot_version : String
  repository_url : String
  description : String
  language : String
  framework : String
  status : String
  submitted_at : String
  updated_at : String
deriving DecidableEq

/-- The in-memory submissions_db of server.py, keyed by submission id. -/
abbrev SubmissionsDb := List (String × Submission)

/-- Dictionary lookup on the submission store. -/
def dbLookup (db : SubmissionsDb) (id : String) : Option Submission :=
  (db.find? (fun p => p.1 == id)).map (fun p => p.2)

/-- Response shape of get_submission in server.py. -/
structure GetSubmissionResult where
  success : Bool
  error : Option String
  submission : Option Submission
deriving DecidableEq

/--
get_submission (server.py lines 342-362), with the store threaded
explicitly: an unknown id yields the not-found error naming the id and
the store is returned as received.
-/
def get_submission (db : SubmissionsDb) (id : String) :
    GetSubmissionResult × SubmissionsDb :=
  match dbLookup db id with
  | none => (⟨false, some ("Submission '" ++ id ++ "' not found"), none⟩, db)
  | some s => (⟨true, none, some s⟩, db)

/-- Response shape of update_submission in server.py. -/
structure UpdateSubmissionResult where
  success : Bool
  error : Option String
  message : Option String
  submission : Option Submission
deriving DecidableEq

/--
The field updates of update_submission (server.py lines 430-440): each
provided optional field overwrites the stored one, and updated_at is set
to the current time.
-/
def applyUpdate (s : Submission) (bv desc repo st : Option String)
    (now : String) : Submission :=
  let s1 := match bv with | some v => { s with bot_version := v } | none => s
  let s2 := match desc with | some v => { s1 with description := v } | none => s1
  let s3 := match repo with | some v => { s2 with repository_url := v } | none => s2
  let s4 := match st with | some v => { s3 with status := v } | none => s3
  { s4 with updated_at := now }

/--
update_submission (server.py lines 401-446): an unknown id yields the
not-found error naming the id and leaves the store untouched; otherwise
the matching record is replaced by its updated version.
-/
def update_submission (db : SubmissionsDb) (id : String)
    (bv desc repo st : Option String) (now : String) :
    UpdateSubmissionResult × SubmissionsDb :=
  match dbLookup db id with
  | none => (⟨false, some ("Submission '" ++ id ++ "' not found"), none, none⟩, db)
  | some s =>
      let s1 := applyUpdate s bv desc repo st now
      (⟨true, none, some ("Submission '" ++ id ++ "' updated successfully"), some s1⟩,
       db.map (fun p => if p.1 == id then (p.1, s1) else p))

/-- Response shape of delete_submission in server.py. -/
structure DeleteSubmissionResult where
  success : Bool
  error : Option String
  message : Option String
  deleted_submission : Option Submission
deriving DecidableEq

/--
delete_submission (server.py lines 449-472): an unknown id yields the
not-found error naming the id and leaves the store untouched; otherwise
the record is popped from the store and echoed back.
-/
def delete_submission (db : SubmissionsDb) (id : String) :
    DeleteSubmissionResult × SubmissionsDb :=
  match dbLookup db id with
  | none => (⟨false, some ("Submission '" ++ id ++ "' not found"), none, none⟩, db)
  | some s =>
      (⟨true, none, some ("Submission '" ++ id ++ "' deleted successfully"), some s⟩,
       db.filter (fun p => !(p.1 == id)))

/-
Helper lemmas.
-/

/-- The compliance comparison in integer form (the threshold branch). -/
theorem compliance_iff (c t : Nat) (ht : t ≠ 0) :
    ((95 : ℚ) ≤ (c : ℚ) / (t : ℚ) * 100) ↔ 95 * t ≤ 100 * c := by
  have ht0 : (0 : ℚ) < (t : ℚ) := by exact_mod_cast Nat.pos_of_ne_zero ht
  rw [div_mul_eq_mul_div, le_div_iff₀ ht0]
  constructor
  · intro h
    have h1 : ((95 * t : Nat) : ℚ) ≤ ((100 * c : Nat) : ℚ) := by push_cast; linarith
    exact_mod_cast h1
  · intro h
    have h1 : ((95 * t : Nat) : ℚ) ≤ ((100 * c : Nat) : ℚ) := by exact_mod_cast h
    push_cast at h1
    linarith

/-- complianceOK as a computation over naturals. -/
theorem complianceOK_eq (c t : Nat) :
    complianceOK c t = (decide (t ≠ 0) && decide (95 * t ≤ 100 * c)) := by
  unfold complianceOK
  by_cases ht : t = 0
  · subst ht; simp
  · simp [ht, compliance_iff c t ht]

/-- check_statement_endings as a computation over naturals. -/
theorem check_statement_endings_eq (files : List (Option (List Line))) :
    check_statement_endings files =
      ((statState files).total == 0 ||
        decide (95 * (statState files).total ≤ 100 * (statState files).correct)) := by
  unfold check_statement_endings
  by_cases h : (statState files).total = 0
  · simp [h]
  · simp [h, complianceOK_eq]

/-- Every path of check_execution_time returns True. -/
theorem check_execution_time_eq_true (env : TimeEnv) :
    check_execution_time env = true := by
  unfold check_execution_time
  rcases env with ⟨r, t⟩
  cases r
  · cases t <;> simp
  · simp

/--
Accounting invariant of the statement scan: every counted statement is
exactly one of compliant, excused by the string-literal heuristic, or
recorded as an issue.
-/
def stmtAccounted (st : StmtState) : Prop :=
  st.total = st.correct + st.strExcluded + st.issues.length

/-- Processing one line preserves the accounting invariant. -/
theorem stmtProcessLine_account (fi : Nat) (st : StmtState) (n : Nat) (l : Line)
    (h : stmtAccounted st) : stmtAccounted (stmtProcessLine fi st n l) := by
  unfold stmtAccounted at h ⊢
  unfold stmtProcessLine
  dsimp only
  split_ifs <;> first
    | omega
    | (simp only [List.length_append, List.length_cons, List.length_nil]; omega)

/-- Scanning the lines of a file preserves the accounting invariant. -/
theorem stmtScanLines_account (fi : Nat) :
    ∀ (ls : List Line) (n : Nat) (st : StmtState),
      stmtAccounted st → stmtAccounted (stmtScanLines fi n st ls) := by
  intro ls
  induction ls with
  | nil => intro n st h; exact h
  | cons l ls ih =>
      intro n st h
      exact ih (n + 1) _ (stmtProcessLine_account fi st n l h)

/-- Scanning a list of files preserves the accounting invariant. -/
theorem stmtScanFiles_account :
    ∀ (fs : List (List Line)) (fi : Nat) (st : StmtState),
      stmtAccounted st → stmtAccounted (stmtScanFiles fi st fs) := by
  intro fs
  induction fs with
  | nil => intro fi st h; exact h
  | cons f fs ih =>
      intro fi st h
      refine ih (fi + 1) _ (stmtScanLines_account fi f 1 _ ?_)
      exact h

/-- The final statement-scan accumulator satisfies the accounting invariant. -/
theorem statState_account (files : List (Option (List Line))) :
    stmtAccounted (statState files) :=
  stmtScanFiles_account _ 1 stmtInit rfl

/-- Violations recorded while scanning one file carry that file index. -/
theorem dsScanLines_file (fi : Nat) :
    ∀ (ls : List Line) (n : Nat) (v : RuleViolation),
      v ∈ dsScanLines fi n ls → v.file = fi := by
  intro ls
  induction ls with
  | nil => intro n v hv; simp [dsScanLines] at hv
  | cons l ls ih =>
      intro n v hv
      rw [dsScanLines] at hv
      rcases List.mem_append.mp hv with hv | hv
      · by_cases hl : dsLineViolates l
        · simp only [hl, if_pos, List.mem_singleton] at hv
          subst hv; rfl
        · simp [hl] at hv
      · exact ih (n + 1) v hv

/-- Violations recorded from line number n onward have line number at least n. -/
theorem dsScanLines_line_lb (fi : Nat) :
    ∀ (ls : List Line) (n : Nat) (v : RuleViolation),
      v ∈ dsScanLines fi n ls → n ≤ v.line := by
  intro ls
  induction ls with
  | nil => intro n v hv; simp [dsScanLines] at hv
  | cons l ls ih =>
      intro n v hv
      rw [dsScanLines] at hv
      rcases List.mem_append.mp hv with hv | hv
      · by_cases hl : dsLineViolates l
        · simp only [hl, if_pos, List.mem_singleton] at hv
          subst hv; exact Nat.le_refl n
        · simp [hl] at hv
      · exact Nat.le_of_succ_le (ih (n + 1) v hv)

/-- Violations recorded from file index fi onward have file index at least fi. -/
theorem dsScanFiles_file_lb :
    ∀ (fs : List (List Line)) (fi : Nat) (v : RuleViolation),
      v ∈ dsScanFiles fi fs → fi ≤ v.file := by
  intro fs
  induction fs with
  | nil => intro fi v hv; simp [dsScanFiles] at hv
  | cons f fs ih =>
      intro fi v hv
      rw [dsScanFiles] at hv
      rcases List.mem_append.mp hv with hv | hv
      · exact Nat.le_of_eq (dsScanLines_file fi f 1 v hv).symm
      · exact Nat.le_of_succ_le (ih (fi + 1) v hv)

/--
Scanning the lines of one file records exactly one violation at the line
numbered n + i when line i offends, and none otherwise.
-/
theorem dsScanLines_countP (fi : Nat) :
    ∀ (ls : List Line) (n i : Nat) (hi : i < ls.length),
      (dsScanLines fi n ls).countP (fun v => v.line == n + i) =
        if dsLineViolates ls[i] then 1 else 0 := by
  intro ls
  induction ls with
  | nil => intro n i hi; exact absurd hi (by simp)
  | cons l ls ih =>
      intro n i hi
      rw [dsScanLines, List.countP_append]
      cases i with
      | zero =>
          have htail :
              (dsScanLines fi (n + 1) ls).countP (fun v => v.line == n + 0) = 0 := by
            apply List.countP_eq_zero.mpr
            intro v hv
            have hlb := dsScanLines_line_lb fi ls (n + 1) v hv
            simp only [beq_iff_eq]
            omega
          rw [htail]
          by_cases hl : dsLineViolates l <;>
            simp [hl, List.countP_cons]
      | succ i2 =>
          have hhead :
              (if dsLineViolates l then [(⟨fi, n, pyStrip l⟩ : RuleViolation)] else []).countP
                (fun v => v.line == n + (i2 + 1)) = 0 := by
            by_cases hl : dsLineViolates l <;> simp [hl, List.countP_cons]
          rw [hhead]
          have harith : n + (i2 + 1) = (n + 1) + i2 := by omega
          rw [harith]
          rw [ih (n + 1) i2 (by simpa using Nat.lt_of_succ_lt_succ hi)]
          simp

/--
Scanning the lines of one file records the violation for each offending
line, with its 1-based line number and the stripped line as snippet.
-/
theorem dsScanLines_mem (fi : Nat) :
    ∀ (ls : List Line) (n i : Nat) (hi : i < ls.length),
      dsLineViolates ls[i] = true →
      (⟨fi, n + i, pyStrip ls[i]⟩ : RuleViolation) ∈ dsScanLines fi n ls := by
  intro ls
  induction ls with
  | nil => intro n i hi; exact absurd hi (by simp)
  | cons l ls ih =>
      intro n i hi hv
      rw [dsScanLines]
      cases i with
      | zero =>
          apply List.mem_append_left
          simp only [List.getElem_cons_zero] at hv
          simp [hv]
      | succ i2 =>
          apply List.mem_append_right
          have harith : n + (i2 + 1) = (n + 1) + i2 := by omega
          rw [harith]
          simp only [List.getElem_cons_succ] at hv ⊢
          exact ih (n + 1) i2 (by simpa using Nat.lt_of_succ_lt_succ hi) hv

/--
Within the whole scan, violations attributed to the file numbered fi + j
are exactly the violations of the scan of that file.
-/
theorem dsScanFiles_countP :
    ∀ (fs : List (List Line)) (fi j m : Nat) (hj : j < fs.length),
      (dsScanFiles fi fs).countP (fun v => v.file == fi + j && v.line == m) =
        (dsScanLines (fi + j) 1 fs[j]).countP (fun v => v.line == m) := by
  intro fs
  induction fs with
  | nil => intro fi j m hj; exact absurd hj (by simp)
  | cons f fs ih =>
      intro fi j m hj
      rw [dsScanFiles, List.countP_append]
      cases j with
      | zero =>
          have h2 :
              (dsScanFiles (fi + 1) fs).countP
                (fun v => v.file == fi + 0 && v.line == m) = 0 := by
            apply List.countP_eq_zero.mpr
            intro v hv
            have hlb := dsScanFiles_file_lb fs (fi + 1) v hv
            simp only [Bool.and_eq_true, beq_iff_eq, not_and]
            omega
          rw [h2]
          have h1 :
              (dsScanLines fi 1 f).countP (fun v => v.file == fi + 0 && v.line == m) =
                (dsScanLines fi 1 f).countP (fun v => v.line == m) := by
            apply List.countP_congr
            intro v hv
            have hfile := dsScanLines_file fi f 1 v hv
            simp [hfile]
          rw [h1]
          simp
      | succ j2 =>
          have h1 :
              (dsScanLines fi 1 f).countP
                (fun v => v.file == fi + (j2 + 1) && v.line == m) = 0 := by
            apply List.countP_eq_zero.mpr
            intro v hv
            have hfile := dsScanLines_file fi f 1 v hv
            simp only [Bool.and_eq_true, beq_iff_eq, not_and, hfile]
            omega
          rw [h1]
          have harith : fi + (j2 + 1) = (fi + 1) + j2 := by omega
          rw [harith]
          rw [ih (fi + 1) j2 m (by simpa using Nat.lt_of_succ_lt_succ hj)]
          simp

/-- Violations of the scan of one file appear in the whole scan. -/
theorem dsScanFiles_mem :
    ∀ (fs : List (List Line)) (fi j : Nat) (hj : j < fs.length) (v : RuleViolation),
      v ∈ dsScanLines (fi + j) 1 fs[j] → v ∈ dsScanFiles fi fs := by
  intro fs
  induction fs with
  | nil => intro fi j hj; exact absurd hj (by simp)
  | cons f fs ih =>
      intro fi j hj v hv
      rw [dsScanFiles]
      cases j with
      | zero =>
          apply List.mem_append_left
          simpa using hv
      | succ j2 =>
          apply List.mem_append_right
          apply ih (fi + 1) j2 (by simpa using Nat.lt_of_succ_lt_succ hj) v
          have harith : (fi + 1) + j2 = fi + (j2 + 1) := by omega
          rw [harith]
          simpa using hv

/-
Claim theorems.
-/

/--
C1, counterexample.  The claim says an infrastructure failure in stage k
leaves stages k+1..n unexecuted and marked skipped-not-run.  In the code
there is no skip state at all: with the compilation stage raising (an
infrastructure failure in stage 1) and benign environments for the rest,
all four later stages still execute and report their own pass results;
only the overall verdict is false.
-/
theorem C1_counterexample :
    run_all_verifications
        ⟨⟨true, 0⟩, [], [], ⟨false, 0, true, 1, 1, 0⟩, ⟨false, none⟩⟩ =
      ([("compilation", false), ("double_semicolons", true),
        ("statement_endings", true), ("test_coverage", true),
        ("execution_time", true)], false) := by
  simp [run_all_verifications, check_compilation, check_double_semicolons,
    check_statement_endings, check_test_coverage, check_execution_time,
    statState, dsScanFiles, stmtScanFiles, stmtInit, ite_self]

/--
C1, amended.  Infrastructure failures are caught inside the stage that
suffers them and never abort the pipeline: every run reports a boolean
result for all five stages in order (there is no skipped state), a raised
exception in the compilation or coverage stage makes the overall verdict
false through that stage, and a raised exception in the execution-time
stage is swallowed as a pass.
-/
theorem C1_stages_never_skipped (env : PipelineEnv) :
    (run_all_verifications env).1.map Prod.fst =
      ["compilation", "double_semicolons", "statement_endings",
        "test_coverage", "execution_time"] ∧
    (env.comp.raises = true → (run_all_verifications env).2 = false) ∧
    (env.cov.raises = true → (run_all_verifications env).2 = false) ∧
    (env.time.raises = true → check_execution_time env.time = true) := by
  refine ⟨rfl, ?_, ?_, ?_⟩
  · intro h
    simp [run_all_verifications, check_compilation, h]
  · intro h
    simp [run_all_verifications, check_test_coverage, h]
  · intro h
    exact check_execution_time_eq_true env.time

/-- C1, witness for the amended statement at a concrete environment. -/
theorem C1_stages_never_skipped_witness :
    (run_all_verifications
        ⟨⟨true, 0⟩, [], [], ⟨true, 0, false, 0, 0, 0⟩, ⟨true, none⟩⟩).1.map Prod.fst =
      ["compilation", "double_semicolons", "statement_endings",
        "test_coverage", "execution_time"] ∧
    (run_all_verifications
        ⟨⟨true, 0⟩, [], [], ⟨true, 0, false, 0, 0, 0⟩, ⟨true, none⟩⟩).2 = false ∧
    check_execution_time ⟨true, none⟩ = true :=
  ⟨(C1_stages_never_skipped _).1,
   (C1_stages_never_skipped
      ⟨⟨true, 0⟩, [], [], ⟨true, 0, false, 0, 0, 0⟩, ⟨true, none⟩⟩).2.1 rfl,
   (C1_stages_never_skipped
      ⟨⟨true, 0⟩, [], [], ⟨true, 0, false, 0, 0, 0⟩, ⟨true, none⟩⟩).2.2.2 rfl⟩

/--
C2: the overall verdict of run_all_verifications is the conjunction of
the five check results, and the exit code of main (with the UserBot
directory present, so that the pipeline runs) is 0 exactly when the
overall verdict holds, else 1.
-/
theorem C2_overall_is_conjunction_and_exit_code (env : PipelineEnv) :
    (run_all_verifications env).2 =
      (check_compilation env.comp && check_double_semicolons env.dsFiles &&
        check_statement_endings env.stmtFiles && check_test_coverage env.cov &&
        check_execution_time env.time) ∧
    (main_exit true env = 0 ↔ (run_all_verifications env).2 = true) := by
  constructor
  · simp [run_all_verifications, Bool.and_assoc]
  · unfold main_exit
    cases h : (run_all_verifications env).2 <;> simp [h]

/--
C3, counterexample.  The claim says the coverage check never fails
whatever the tooling outcome; but when the dotnet test run exits with a
nonzero code the check returns failure.
-/
theorem C3_counterexample :
    check_test_coverage ⟨false, 1, false, 0, 0, 0⟩ = false := rfl

/--
C3, amended.  When the coverage tooling succeeds (no exception, test run
exit code 0, coverage files found), the coverage ratio alone never fails
the check: it passes whatever the ratio.  (It does fail on a nonzero test
run exit code, an exception, or a zero discovered-test count in the
fallback.)
-/
theorem C3_coverage_passes_when_tooling_ok (env : CoverageEnv)
    (h1 : env.raises = false) (h2 : env.testRunExit = 0)
    (h3 : env.coverageFilesFound = true) :
    check_test_coverage env = true := by
  simp [check_test_coverage, h1, h2, h3, ite_self]

/--
C3, witness: a run with coverage files found and a file ratio of 0
percent, far below the 50 percent threshold, still passes.
-/
theorem C3_coverage_passes_when_tooling_ok_witness :
    check_test_coverage ⟨false, 0, true, 3, 0, 0⟩ = true :=
  C3_coverage_passes_when_tooling_ok ⟨false, 0, true, 3, 0, 0⟩ rfl rfl rfl

/--
C4, counterexample.  The claim says the file-ratio tier is used only when
no coverage artifacts exist.  In the code it is the opposite: without
artifacts the check skips the file ratio entirely and consults the
discovered-test count.  With one source file and one test file (ratio 100
percent, which under the claim would decide the outcome by tier b), the
result instead flips with the discovered-test count: 0 tests fail, 60
tests pass.
-/
theorem C4_counterexample :
    check_test_coverage ⟨false, 0, false, 1, 1, 0⟩ = false ∧
    check_test_coverage ⟨false, 0, false, 1, 1, 60⟩ = true :=
  ⟨rfl, rfl⟩

/--
C4, amended.  The estimator has two tiers, not three: when coverage
artifact files exist the check computes the file-count ratio (it never
parses the artifacts) and passes regardless of that ratio; when no
artifacts exist it falls back to the discovered-test count and passes
exactly when that count is positive (with a warning below 50).  The
result is a bare boolean; the method used is not recorded.
-/
theorem C4_artifact_presence_selects_tier (env : CoverageEnv)
    (h1 : env.raises = false) (h2 : env.testRunExit = 0) :
    (env.coverageFilesFound = true → check_test_coverage env = true) ∧
    (env.coverageFilesFound = false →
      (check_test_coverage env = true ↔ 0 < env.listedTestCount)) := by
  constructor
  · intro h3
    simp [check_test_coverage, h1, h2, h3, ite_self]
  · intro h3
    simp only [check_test_coverage, h1, h2, h3, Bool.false_eq_true, if_false, ne_eq,
      not_true_eq_false]
    by_cases h : 50 ≤ env.listedTestCount
    · simp [h]
      omega
    · simp [h]

/-- C4, witness for the amended statement at concrete environments. -/
theorem C4_artifact_presence_selects_tier_witness :
    check_test_coverage ⟨false, 0, true, 2, 1, 0⟩ = true ∧
    check_test_coverage ⟨false, 0, false, 2, 1, 7⟩ = true :=
  ⟨(C4_artifact_presence_selects_tier ⟨false, 0, true, 2, 1, 0⟩ rfl rfl).1 rfl,
   ((C4_artifact_presence_selects_tier ⟨false, 0, false, 2, 1, 7⟩ rfl rfl).2 rfl).mpr
      (by decide)⟩

/--
C5, counterexample.  The claim says the latency check passes if and only
if the estimate is below the 300 ms ceiling.  With a parsed total time of
138 seconds the estimate is 400 ms, at or above the ceiling, yet the
check still passes (the high branch merely warns).
-/
theorem C5_counterexample :
    check_execution_time ⟨false, some 138⟩ = true ∧
    MAX_EXECUTION_TIME_MS ≤ estimated_api_time 138 := by
  constructor
  · simp [check_execution_time, ite_self]
  · norm_num [estimated_api_time, MAX_EXECUTION_TIME_MS]

/--
C5, amended.  When aggregate timing is available the estimate is computed
as (totalSeconds / 69) * 1000 / 5, with the test count hardcoded to 69
and the calls-per-test estimate hardcoded to 5, and the check passes
whatever the comparison with the 300 ms ceiling says (warning only when
at or above); when timing is unavailable it also passes, with a note.
-/
theorem C5_latency_check_passes_on_both_sides (t : ℚ) :
    check_execution_time ⟨false, some t⟩ = true ∧
    check_execution_time ⟨false, none⟩ = true := by
  constructor <;> simp [check_execution_time, ite_self]

/--
C6: the trailing-marker check passes exactly when no statement was found
(vacuous pass) or the compliance rate correct / total * 100 reaches the
95 percent threshold.
-/
theorem C6_trailing_marker_verdict (files : List (Option (List Line))) :
    check_statement_endings files = true ↔
      ((statState files).total = 0 ∨
        (95 : ℚ) ≤ ((statState files).correct : ℚ) /
          ((statState files).total : ℚ) * 100) := by
  unfold check_statement_endings
  by_cases h : (statState files).total = 0
  · simp [h]
  · simp [h, complianceOK]

/--
C7: every line that contains two adjacent semicolons and whose stripped
form starts with neither comment marker yields exactly one recorded
violation, carrying the file index, the 1-based line number, and the
stripped line as snippet.
-/
theorem C7_double_semicolon_exactly_one
    (files : List (List Line)) (fi li : Nat)
    (hf : fi < files.length) (hl : li < files[fi].length)
    (hv : dsLineViolates files[fi][li] = true) :
    (dsScanFiles 1 files).countP
        (fun v => v.file == fi + 1 && v.line == li + 1) = 1 ∧
    (⟨fi + 1, li + 1, pyStrip files[fi][li]⟩ : RuleViolation) ∈ dsScanFiles 1 files := by
  constructor
  · have h1 := dsScanFiles_countP files 1 fi (li + 1) hf
    rw [Nat.add_comm 1 fi] at h1
    rw [h1]
    have h2 := dsScanLines_countP (fi + 1) files[fi] 1 li hl
    rw [Nat.add_comm 1 li] at h2
    rw [h2, if_pos hv]
  · have h3 := dsScanLines_mem (fi + 1) files[fi] 1 li hl hv
    rw [Nat.add_comm 1 li] at h3
    exact dsScanFiles_mem files 1 fi hf
      ⟨fi + 1, li + 1, pyStrip files[fi][li]⟩ (by rw [Nat.add_comm 1 fi]; exact h3)

/--
C7, witness: the single line int x = 5;; yields exactly one violation,
at file 1, line 1, with its stripped text as snippet.
-/
theorem C7_double_semicolon_exactly_one_witness :
    (dsScanFiles 1 [["int x = 5;;".toList]]).countP
        (fun v => v.file == 0 + 1 && v.line == 0 + 1) = 1 ∧
    (⟨0 + 1, 0 + 1, pyStrip "int x = 5;;".toList⟩ : RuleViolation) ∈
      dsScanFiles 1 [["int x = 5;;".toList]] :=
  C7_double_semicolon_exactly_one [["int x = 5;;".toList]] 0 0
    (by decide) (by decide) (by decide)

/--
C8, counterexample.  The claim says a failing trailing-marker check
records at least one offending line.  A file whose only statement is
var s = "a;b"; is counted as a non-compliant statement (compliance 0
percent, check fails) but the string-literal heuristic suppresses its
violation record, so the check fails with an empty violation list.
-/
theorem C8_counterexample :
    check_statement_endings [some ["var s = \"a;b\";".toList]] = false ∧
    (statState [some ["var s = \"a;b\";".toList]]).issues = [] := by
  constructor
  · rw [check_statement_endings_eq]
    decide
  · decide

/--
C8, amended.  When the trailing-marker check fails, every non-compliant
statement was either recorded in the violation list or excused by the
string-literal heuristic, and at least one of the two kinds exists; a
failing check can have an empty violation list exactly when all its
non-compliant statements are string-literal-excused.
-/
theorem C8_failing_check_leaves_trace (files : List (Option (List Line)))
    (h : check_statement_endings files = false) :
    0 < (statState files).strExcluded + (statState files).issues.length := by
  have hacc := statState_account files
  unfold stmtAccounted at hacc
  rw [check_statement_endings_eq] at h
  simp only [Bool.or_eq_false_iff, beq_eq_false_iff_ne, ne_eq,
    decide_eq_false_iff_not] at h
  omega

/-- C8, witness for the amended statement at the failing concrete file. -/
theorem C8_failing_check_leaves_trace_witness :
    0 < (statState [some ["var s = \"a;b\";".toList]]).strExcluded +
        (statState [some ["var s = \"a;b\";".toList]]).issues.length :=
  C8_failing_check_leaves_trace [some ["var s = \"a;b\";".toList]]
    (by rw [check_statement_endings_eq]; decide)

/--
C9: for an id absent from the store, get, update and delete each return
an unsuccessful result whose error message names the missing id, and the
store is returned unchanged.
-/
theorem C9_missing_id_not_found (db : SubmissionsDb) (id : String)
    (bv desc repo st : Option String) (now : String)
    (h : dbLookup db id = none) :
    get_submission db id =
      (⟨false, some ("Submission '" ++ id ++ "' not found"), none⟩, db) ∧
    update_submission db id bv desc repo st now =
      (⟨false, some ("Submission '" ++ id ++ "' not found"), none, none⟩, db) ∧
    delete_submission db id =
      (⟨false, some ("Submission '" ++ id ++ "' not found"), none, none⟩, db) := by
  unfold get_submission update_submission delete_submission
  rw [h]
  exact ⟨rfl, rfl, rfl⟩

/-- C9, witness on the empty store and a fresh id. -/
theorem C9_missing_id_not_found_witness :
    get_submission [] "sub_42" =
      (⟨false, some ("Submission '" ++ "sub_42" ++ "' not found"), none⟩, []) ∧
    update_submission [] "sub_42" none none none none "2026-01-01T00:00:00" =
      (⟨false, some ("Submission '" ++ "sub_42" ++ "' not found"), none, none⟩, []) ∧
    delete_submission [] "sub_42" =
      (⟨false, some ("Submission '" ++ "sub_42" ++ "' not found"), none, none⟩, []) :=
  C9_missing_id_not_found [] "sub_42" none none none none "2026-01-01T00:00:00" rfl

/--
C10: check_execution_time returns pass on every path: exception raised,
timing present with estimate on either side of the ceiling, or timing
absent; it can never contribute a failed result to the overall verdict.
-/
theorem C10_execution_time_never_fails (env : TimeEnv) :
    check_execution_time env = true :=
  check_execution_time_eq_true env
